import Mathlib

/-!
Verification of the meta-stack frontend API error-handling and sanitization layer.

The definitions below are a shallow embedding of the TypeScript sources:
- `apps/frontend/lib/api/errors/types.ts` (ApiErrorCode, ApiError),
- `apps/frontend/lib/api/errors/messages.ts` (ERROR_MESSAGES, HTTP_STATUS_TO_ERROR_CODE),
- `apps/frontend/lib/api/errors/handler.ts` (extractErrorMessage, extractValidationErrors,
  determineErrorCode, handleApiError),
- the axios mutator module (AXIOS_CONFIG_KEYS, stripFunctionsFromParams, sanitizeAxiosConfig,
  the response interceptor),
- the response validator module (validateArray).

JavaScript values that the code inspects dynamically are modelled by explicit inductive
types; `undefined` is a first-class value where the code tests for it.  The wall clock
read by `new Date()` is passed explicitly.
-/

namespace MetaStack

/-- The closed error taxonomy `ApiErrorCode` from `errors/types.ts`. -/
inductive ApiErrorCode where
  | NETWORK_ERROR
  | TIMEOUT
  | REQUEST_CANCELLED
  | UNAUTHORIZED
  | FORBIDDEN
  | TOKEN_EXPIRED
  | INVALID_CREDENTIALS
  | VALIDATION_ERROR
  | INVALID_INPUT
  | MISSING_REQUIRED_FIELD
  | NOT_FOUND
  | CONFLICT
  | ALREADY_EXISTS
  | INTERNAL_SERVER_ERROR
  | SERVICE_UNAVAILABLE
  | BAD_GATEWAY
  | BUSINESS_ERROR
  | OPERATION_NOT_ALLOWED
  | UNKNOWN_ERROR
deriving DecidableEq, Repr

/-- Source `ERROR_MESSAGES` from `errors/messages.ts`: user-facing message per code. -/
def ERROR_MESSAGES : ApiErrorCode → String
  | .NETWORK_ERROR => "Unable to connect to the server. Please check your internet connection and try again."
  | .TIMEOUT => "The request took too long to complete. Please try again."
  | .REQUEST_CANCELLED => "The request was cancelled."
  | .UNAUTHORIZED => "Your session has expired. Please sign in again."
  | .FORBIDDEN => "You do not have permission to perform this action."
  | .TOKEN_EXPIRED => "Your session has expired. Please sign in again."
  | .INVALID_CREDENTIALS => "Invalid email or password. Please try again."
  | .VALIDATION_ERROR => "Please check your input and correct any errors."
  | .INVALID_INPUT => "The provided data is invalid."
  | .MISSING_REQUIRED_FIELD => "Please fill in all required fields."
  | .NOT_FOUND => "The requested resource was not found."
  | .CONFLICT => "This operation conflicts with existing data. Please refresh and try again."
  | .ALREADY_EXISTS => "This item already exists."
  | .INTERNAL_SERVER_ERROR => "Something went wrong on our end. Please try again later."
  | .SERVICE_UNAVAILABLE => "The service is temporarily unavailable. Please try again later."
  | .BAD_GATEWAY => "Unable to reach the server. Please try again later."
  | .BUSINESS_ERROR => "The operation could not be completed."
  | .OPERATION_NOT_ALLOWED => "This operation is not allowed."
  | .UNKNOWN_ERROR => "An unexpected error occurred. Please try again."

/-- Source `HTTP_STATUS_TO_ERROR_CODE` from `errors/messages.ts`: a partial map on status codes
(`Record<number, ApiErrorCode>`); `none` models a status absent from the record. -/
def HTTP_STATUS_TO_ERROR_CODE : Nat → Option ApiErrorCode
  | 400 => some .VALIDATION_ERROR
  | 401 => some .UNAUTHORIZED
  | 403 => some .FORBIDDEN
  | 404 => some .NOT_FOUND
  | 409 => some .CONFLICT
  | 422 => some .VALIDATION_ERROR
  | 429 => some .SERVICE_UNAVAILABLE
  | 500 => some .INTERNAL_SERVER_ERROR
  | 502 => some .BAD_GATEWAY
  | 503 => some .SERVICE_UNAVAILABLE
  | 504 => some .TIMEOUT
  | _ => none

/-- Source `getErrorMessage`: `ERROR_MESSAGES[code] || ERROR_MESSAGES[UNKNOWN_ERROR]`
(the fallback fires only on a falsy, i.e. empty, message). -/
def getErrorMessage (code : ApiErrorCode) : String :=
  let m := ERROR_MESSAGES code
  if m = "" then ERROR_MESSAGES .UNKNOWN_ERROR else m

/-- Source `getErrorCodeFromStatus`: `HTTP_STATUS_TO_ERROR_CODE[status] || UNKNOWN_ERROR`. -/
def getErrorCodeFromStatus (status : Nat) : ApiErrorCode :=
  (HTTP_STATUS_TO_ERROR_CODE status).getD .UNKNOWN_ERROR

/-- JavaScript `String.prototype.toLowerCase`, character by character. -/
def jsToLowerCase (s : String) : String :=
  String.mk (s.toList.map Char.toLower)

/-- JavaScript `String.prototype.includes`: substring containment. -/
def strIncludes (s pat : String) : Bool :=
  (List.range (s.toList.length + 1)).any fun i => pat.toList.isPrefixOf (s.toList.drop i)

/-- One entry of a FastAPI-style validation `detail` array:
`{loc?: string[], msg?: string, type?: string}` (see `ApiErrorResponse` and
`extractValidationErrors`). -/
structure DetailItem where
  loc : Option (List String)
  msg : Option String
  type : Option String
deriving DecidableEq, Repr

/-- The `detail` field of a server error body:
`string | Array<{loc, msg, type}> | Record<string, string>` (per `ApiErrorResponse`
and the two parsing paths of `extractValidationErrors`). -/
inductive DetailVal where
  | str (s : String)
  | arr (items : List DetailItem)
  | map (fields : List (String × String))
deriving DecidableEq, Repr

/-- The response body `data` as the handler inspects it, following the parsed
`ApiErrorResponse` contract: an absent (`undefined`) body, a `null` body,
a plain string body, or an object with optional `message` and `detail` fields. -/
inductive ResponseData where
  | absent
  | null
  | str (s : String)
  | obj (message : Option String) (detail : Option DetailVal)
deriving DecidableEq, Repr

/-- JavaScript truthiness of the body value as used by `if (!data)`. -/
def ResponseData.truthy : ResponseData → Bool
  | .absent => false
  | .null => false
  | .str s => s ≠ ""
  | .obj _ _ => true

/-- Optional-chained `(data as ApiErrorResponse)?.detail`. -/
def ResponseData.detailField : ResponseData → Option DetailVal
  | .obj _ d => d
  | _ => none

/-- Source `extractErrorMessage` from `handler.ts`: prefer a truthy `message` field, then a
string `detail`, then the joined `msg` entries of a `detail` array, else `""`. -/
def extractErrorMessage (data : ResponseData) : String :=
  if !data.truthy then ""
  else
    match data with
    | .str s => s
    | .obj message detail =>
        match message with
        | some m =>
            if m ≠ "" then m
            else
              match detail with
              | some (.str s) => s
              | some (.arr items) =>
                  String.intercalate ", " (((items.map (·.msg)).filterMap id).filter (· ≠ ""))
              | _ => ""
        | none =>
            match detail with
            | some (.str s) => s
            | some (.arr items) =>
                String.intercalate ", " (((items.map (·.msg)).filterMap id).filter (· ≠ ""))
            | _ => ""
    | _ => ""

/-- A field-level `ValidationError` from `errors/types.ts`. -/
structure ValidationError where
  field : String
  message : String
  code : Option String
deriving DecidableEq, Repr

/-- Source `extractValidationErrors` from `handler.ts`, applied to the (optionally chained)
`detail` value: FastAPI array shape, or an object map of field to message. -/
def extractValidationErrors (detail : Option DetailVal) : Option (List ValidationError) :=
  match detail with
  | none => none
  | some (.str _) => none
  | some (.arr items) =>
      some (items.map fun err =>
        { field :=
            match err.loc with
            | some l =>
                let joined := String.intercalate "." (l.drop 1)
                if joined = "" then "unknown" else joined
            | none => "unknown"
          message :=
            match err.msg with
            | some m => if m = "" then "Validation error" else m
            | none => "Validation error"
          code := err.type })
  | some (.map fields) =>
      some (fields.map fun kv => { field := kv.1, message := kv.2, code := none })

/-- Source `determineErrorCode` from `handler.ts`: `status && HTTP_STATUS_TO_ERROR_CODE[status]`
gates the table path (`status = 0` is falsy); inside it, status 401 first runs the
message heuristic before falling back to the table. -/
def determineErrorCode (status : Option Nat) (data : ResponseData) : ApiErrorCode :=
  match status with
  | some s =>
      if s ≠ 0 ∧ (HTTP_STATUS_TO_ERROR_CODE s).isSome then
        if s = 401 then
          let message := jsToLowerCase (extractErrorMessage data)
          if strIncludes message "invalid" || strIncludes message "incorrect" ||
              strIncludes message "wrong" then
            ApiErrorCode.INVALID_CREDENTIALS
          else if strIncludes message "expired" then
            ApiErrorCode.TOKEN_EXPIRED
          else
            getErrorCodeFromStatus s
        else
          getErrorCodeFromStatus s
      else
        ApiErrorCode.UNKNOWN_ERROR
  | none => ApiErrorCode.UNKNOWN_ERROR

/-- Following the words of the spec (§4.4 rule 2): when status is 401, inspect the
extracted message case-insensitively for the substrings "invalid"/"incorrect"/"wrong",
yielding invalid-credentials, else for "expired", yielding token-expired, else
unauthorized.  Stated separately from the source so the two can be compared. -/
def specMessageHeuristic401 (message : String) : ApiErrorCode :=
  let m := jsToLowerCase message
  if strIncludes m "invalid" || strIncludes m "incorrect" || strIncludes m "wrong" then
    ApiErrorCode.INVALID_CREDENTIALS
  else if strIncludes m "expired" then
    ApiErrorCode.TOKEN_EXPIRED
  else
    ApiErrorCode.UNAUTHORIZED

/-- A wall-clock reading, modelling the JavaScript `Date` produced by `new Date()`
in the `ApiError` constructor, broken into its UTC calendar fields. -/
structure JsDate where
  year : Nat
  month : Nat
  day : Nat
  hour : Nat
  minute : Nat
  second : Nat
  millisecond : Nat
deriving DecidableEq, Repr

/-- A real clock reading is a valid calendar datetime within the four-digit-year
range that `Date.prototype.toISOString` renders as `YYYY-MM-DDTHH:mm:ss.sssZ`. -/
def JsDate.Valid (d : JsDate) : Prop :=
  d.year ≤ 9999 ∧ 1 ≤ d.month ∧ d.month ≤ 12 ∧ 1 ≤ d.day ∧ d.day ≤ 31 ∧
    d.hour < 24 ∧ d.minute < 60 ∧ d.second < 60 ∧ d.millisecond < 1000

/-- Decimal digit character. -/
def digitChar (n : Nat) : Char := Char.ofNat (48 + n)

/-- Fixed-width zero-padded decimal rendering, as `toISOString` pads its fields. -/
def padDigits (width n : Nat) : List Char :=
  ((List.range width).reverse).map fun i => digitChar (n / 10 ^ i % 10)

/-- Model of `Date.prototype.toISOString` (environment function): the
`YYYY-MM-DDTHH:mm:ss.sssZ` rendering of the calendar fields. -/
def JsDate.toISOString (d : JsDate) : String :=
  String.mk (padDigits 4 d.year ++ ['-'] ++ padDigits 2 d.month ++ ['-'] ++ padDigits 2 d.day
    ++ ['T'] ++ padDigits 2 d.hour ++ [':'] ++ padDigits 2 d.minute
    ++ [':'] ++ padDigits 2 d.second ++ ['.'] ++ padDigits 3 d.millisecond ++ ['Z'])

/-- Recognizer for the ISO-8601 UTC timestamp shape `YYYY-MM-DDTHH:mm:ss.sssZ`:
24 characters, digits and the fixed separators in their places. -/
def isIso8601UTC (s : String) : Bool :=
  match s.toList with
  | [y1, y2, y3, y4, sep1, m1, m2, sep2, d1, d2, tsep,
     h1, h2, c1, n1, n2, c2, s1, s2, dotc, f1, f2, f3, zc] =>
      sep1 == '-' && sep2 == '-' && tsep == 'T' && c1 == ':' && c2 == ':' &&
        dotc == '.' && zc == 'Z' &&
        [y1, y2, y3, y4, m1, m2, d1, d2, h1, h2, n1, n2, s1, s2, f1, f2, f3].all Char.isDigit
  | _ => false

/-- The server response attached to a well-formed axios failure: `status`, body
`data`, and the (lower-cased, per axios) response `headers`.  Genuine axios responses
always carry a `headers` object; `RawRespShape` below drops that guarantee. -/
structure RespShape where
  status : Nat
  data : ResponseData
  headers : List (String × String)
deriving DecidableEq, Repr

/-- The observable shape of a well-formed thrown object value, covering genuine
`Error` instances and genuine axios errors (which subclass `Error`): `instanceof
Error`, string `name` and `message`, the `isAxiosError` brand, the transport `code`
(e.g. `"ECONNABORTED"`), the optional `response`, and whether a `request` object is
attached (request sent).  `RawErrShape` below is the fully general shape in which
`name` and `message` may be absent. -/
structure ErrShape where
  instanceofError : Bool
  name : String
  message : String
  isAxiosError : Bool
  code : Option String
  response : Option RespShape
  request : Bool
deriving DecidableEq, Repr

/-- Any value reaching `handleApiError`: an object (possibly an `Error` or axios error),
or a thrown non-object primitive. -/
inductive Failure where
  | obj (e : ErrShape)
  | prim
deriving DecidableEq, Repr

/-- JavaScript `a || b` on strings: an empty string is falsy. -/
def jsOrStr (a b : String) : String :=
  if a = "" then b else a

/-- JavaScript `a || b` where each operand is a string or `undefined`. -/
def jsOrOpt (a b : Option String) : Option String :=
  match a with
  | some s => if s = "" then b else some s
  | none => b

/-- First value of a response header, `undefined` when absent. -/
def headerGet (headers : List (String × String)) (key : String) : Option String :=
  (headers.find? (fun kv => kv.1 = key)).map (·.2)

/-- The `details` option of `ApiError`:
`typeof data === "object" ? data : { raw: data }` in the response branch. -/
inductive DetailsRecord where
  | fromData (d : ResponseData)
  | raw (d : ResponseData)
deriving DecidableEq, Repr

/-- Test `typeof data === "object"` on the modelled body values (`null` included). -/
def ResponseData.typeofObject : ResponseData → Bool
  | .obj _ _ => true
  | .null => true
  | _ => false

/-- The `ApiError` class from `errors/types.ts` (data fields only; methods below). -/
structure ApiError where
  name : String
  message : String
  code : ApiErrorCode
  statusCode : Nat
  originalError : Failure
  details : Option DetailsRecord
  validationErrors : Option (List ValidationError)
  timestamp : JsDate
  requestId : Option String
deriving DecidableEq, Repr

/-- The `ApiError` constructor: copies the options, sets `name` to `"ApiError"` and
`timestamp` to the current clock reading (`new Date()`, passed explicitly). -/
def ApiError.create (now : JsDate) (message : String) (code : ApiErrorCode)
    (statusCode : Nat) (originalError : Failure) (details : Option DetailsRecord)
    (validationErrors : Option (List ValidationError)) (requestId : Option String) :
    ApiError :=
  { name := "ApiError"
    message := message
    code := code
    statusCode := statusCode
    originalError := originalError
    details := details
    validationErrors := validationErrors
    timestamp := now
    requestId := requestId }

/-- Source `handleApiError` from `handler.ts`: cancellation first, then axios errors (response,
request-without-response, setup failure), then generic `Error`s, then anything else. -/
def handleApiError (now : JsDate) (error : Failure) : ApiError :=
  match error with
  | .obj e =>
      if e.instanceofError ∧ (e.name = "CanceledError" ∨ e.message = "canceled") then
        ApiError.create now (getErrorMessage .REQUEST_CANCELLED) .REQUEST_CANCELLED 0
          error none none none
      else if e.isAxiosError then
        match e.response with
        | some response =>
            let errorCode := determineErrorCode (some response.status) response.data
            let errorMessage := jsOrStr (extractErrorMessage response.data)
              (getErrorMessage errorCode)
            let validationErrors := extractValidationErrors response.data.detailField
            let requestId := jsOrOpt (headerGet response.headers "x-request-id")
              (headerGet response.headers "x-correlation-id")
            ApiError.create now errorMessage errorCode response.status error
              (some (if response.data.typeofObject then .fromData response.data
                     else .raw response.data))
              validationErrors requestId
        | none =>
            if e.request then
              if e.code = some "ECONNABORTED" ∨ strIncludes e.message "timeout" then
                ApiError.create now (getErrorMessage .TIMEOUT) .TIMEOUT 0 error none none none
              else
                ApiError.create now (getErrorMessage .NETWORK_ERROR) .NETWORK_ERROR 0
                  error none none none
            else
              ApiError.create now (jsOrStr e.message (getErrorMessage .UNKNOWN_ERROR))
                .UNKNOWN_ERROR 0 error none none none
      else if e.instanceofError then
        ApiError.create now (jsOrStr e.message (getErrorMessage .UNKNOWN_ERROR))
          .UNKNOWN_ERROR 0 error none none none
      else
        ApiError.create now (getErrorMessage .UNKNOWN_ERROR) .UNKNOWN_ERROR 0
          error none none none
  | .prim =>
      ApiError.create now (getErrorMessage .UNKNOWN_ERROR) .UNKNOWN_ERROR 0
        error none none none

/-- The values appearing in the plain object returned by `ApiError.toJSON`. -/
inductive JsonFieldValue where
  | ofString (s : String)
  | ofCode (c : ApiErrorCode)
  | ofNat (n : Nat)
  | ofDetails (d : Option DetailsRecord)
  | ofValidationErrors (v : Option (List ValidationError))
  | ofOptString (s : Option String)
deriving DecidableEq, Repr

/-- Source `ApiError.toJSON` from `errors/types.ts`: the plain object (ordered key/value list)
built for logging and serialization. -/
def ApiError.toJSON (e : ApiError) : List (String × JsonFieldValue) :=
  [("name", .ofString e.name),
   ("message", .ofString e.message),
   ("code", .ofCode e.code),
   ("statusCode", .ofNat e.statusCode),
   ("details", .ofDetails e.details),
   ("validationErrors", .ofValidationErrors e.validationErrors),
   ("timestamp", .ofString e.timestamp.toISOString),
   ("requestId", .ofOptString e.requestId)]

/-- The server response as attached to an arbitrary axios-branded value: unlike
`RespShape`, the `headers` object may be absent (`undefined`), as on a duck-typed
value that brands itself `isAxiosError: true` without the axios response contract. -/
structure RawRespShape where
  status : Nat
  data : ResponseData
  headers : Option (List (String × String))
deriving DecidableEq, Repr

/-- The fully general observable shape of a thrown object value: the `name` and
`message` properties may be absent (`undefined`), and an attached `response` need not
carry `headers`, so duck-typed objects that brand themselves `isAxiosError: true`
while violating the `AxiosError` contract are expressible.  Property values keep
their contract types where present; `ErrShape.toRaw` embeds the well-formed shape. -/
structure RawErrShape where
  instanceofError : Bool
  name : Option String
  message : Option String
  isAxiosError : Bool
  code : Option String
  response : Option RawRespShape
  request : Bool
deriving DecidableEq, Repr

/-- Any value reaching `handleApiError`, in the fully general shape: an object
(possibly `Error`-derived or axios-branded, possibly malformed), or a thrown
non-object primitive. -/
inductive RawFailure where
  | obj (e : RawErrShape)
  | prim
deriving DecidableEq, Repr

/-- A JavaScript runtime exception escaping `handleApiError`: a `TypeError` raised by
a property access or method call on `undefined`. -/
inductive JsRuntimeError where
  | typeError (description : String)
deriving DecidableEq, Repr

/-- JavaScript `a || b` where `a` is a string property that may be absent. -/
def jsOrUndefStr (a : Option String) (b : String) : String :=
  match a with
  | some s => if s = "" then b else s
  | none => b

/-- The `ApiError` record as produced on the fully general input shape: identical to
`ApiError` except that `originalError` retains the general `RawFailure`. -/
structure RawApiError where
  name : String
  message : String
  code : ApiErrorCode
  statusCode : Nat
  originalError : RawFailure
  details : Option DetailsRecord
  validationErrors : Option (List ValidationError)
  timestamp : JsDate
  requestId : Option String
deriving DecidableEq, Repr

/-- The `ApiError` constructor on the fully general cause. -/
def RawApiError.create (now : JsDate) (message : String) (code : ApiErrorCode)
    (statusCode : Nat) (originalError : RawFailure) (details : Option DetailsRecord)
    (validationErrors : Option (List ValidationError)) (requestId : Option String) :
    RawApiError :=
  { name := "ApiError"
    message := message
    code := code
    statusCode := statusCode
    originalError := originalError
    details := details
    validationErrors := validationErrors
    timestamp := now
    requestId := requestId }

/-- Source `handleApiError` over the fully general input shape, keeping the two paths
on which the source throws a `TypeError`: reading `response.headers["x-request-id"]`
when a truthy `response` has no `headers` object, and calling
`message.includes("timeout")` when an axios-branded value without a `message`
property takes the request-no-response branch and its `code` is not
`"ECONNABORTED"` (the `||` short-circuit is modelled by the nested test). -/
def handleApiErrorRaw (now : JsDate) (error : RawFailure) :
    Except JsRuntimeError RawApiError :=
  match error with
  | .obj e =>
      if e.instanceofError ∧ (e.name = some "CanceledError" ∨ e.message = some "canceled") then
        .ok (RawApiError.create now (getErrorMessage .REQUEST_CANCELLED) .REQUEST_CANCELLED 0
          error none none none)
      else if e.isAxiosError then
        match e.response with
        | some response =>
            let errorCode := determineErrorCode (some response.status) response.data
            let errorMessage := jsOrStr (extractErrorMessage response.data)
              (getErrorMessage errorCode)
            let validationErrors := extractValidationErrors response.data.detailField
            match response.headers with
            | none =>
                .error (.typeError "cannot read properties of undefined (reading x-request-id)")
            | some headers =>
                let requestId := jsOrOpt (headerGet headers "x-request-id")
                  (headerGet headers "x-correlation-id")
                .ok (RawApiError.create now errorMessage errorCode response.status error
                  (some (if response.data.typeofObject then .fromData response.data
                         else .raw response.data))
                  validationErrors requestId)
        | none =>
            if e.request then
              if e.code = some "ECONNABORTED" then
                .ok (RawApiError.create now (getErrorMessage .TIMEOUT) .TIMEOUT 0
                  error none none none)
              else
                match e.message with
                | none =>
                    .error (.typeError "cannot read properties of undefined (reading includes)")
                | some m =>
                    if strIncludes m "timeout" then
                      .ok (RawApiError.create now (getErrorMessage .TIMEOUT) .TIMEOUT 0
                        error none none none)
                    else
                      .ok (RawApiError.create now (getErrorMessage .NETWORK_ERROR)
                        .NETWORK_ERROR 0 error none none none)
            else
              .ok (RawApiError.create now
                (jsOrUndefStr e.message (getErrorMessage .UNKNOWN_ERROR)) .UNKNOWN_ERROR 0
                error none none none)
      else if e.instanceofError then
        .ok (RawApiError.create now
          (jsOrUndefStr e.message (getErrorMessage .UNKNOWN_ERROR)) .UNKNOWN_ERROR 0
          error none none none)
      else
        .ok (RawApiError.create now (getErrorMessage .UNKNOWN_ERROR) .UNKNOWN_ERROR 0
          error none none none)
  | .prim =>
      .ok (RawApiError.create now (getErrorMessage .UNKNOWN_ERROR) .UNKNOWN_ERROR 0
        error none none none)

/-- A well-formed transport failure viewed as a raw value: `name` and `message`
present, and any attached response carrying its `headers`. -/
def ErrShape.toRaw (e : ErrShape) : RawErrShape :=
  { instanceofError := e.instanceofError
    name := some e.name
    message := some e.message
    isAxiosError := e.isAxiosError
    code := e.code
    response := e.response.map fun r =>
      { status := r.status, data := r.data, headers := some r.headers }
    request := e.request }

/-- A well-formed failure viewed as a raw value. -/
def Failure.toRaw : Failure → RawFailure
  | .obj e => .obj e.toRaw
  | .prim => .prim

/-- A JavaScript value as inspected by the config sanitizer: `undefined`, `null`,
primitives, functions, arrays and plain objects. -/
inductive PVal where
  | vundefined
  | vnull
  | vbool (b : Bool)
  | vnum (n : Int)
  | vstr (s : String)
  | vfunc
  | varr (xs : List PVal)
  | vobj (fields : List (String × PVal))

/-- Test `v !== undefined`. -/
def PVal.isUndefined : PVal → Bool
  | .vundefined => true
  | _ => false

/-- Test `typeof v === "function"`. -/
def PVal.isFunction : PVal → Bool
  | .vfunc => true
  | _ => false

/-- Test `typeof v === "object"` (true for `null`, arrays and plain objects). -/
def PVal.typeofObject : PVal → Bool
  | .vnull => true
  | .varr _ => true
  | .vobj _ => true
  | _ => false

/-- Test `v === null`. -/
def PVal.isNull : PVal → Bool
  | .vnull => true
  | _ => false

/-- Test `Array.isArray(v)`. -/
def PVal.isArray : PVal → Bool
  | .varr _ => true
  | _ => false

/-- Count `Object.keys(v).length` (on an array this counts the indices). -/
def PVal.objKeysLength : PVal → Nat
  | .vobj fields => fields.length
  | .varr xs => xs.length
  | _ => 0

mutual

/-- Source `stripFunctionsFromParams` from the axios mutator module.  Note the source's
first guard `typeof obj !== "object" || obj === null` returns every non-object —
functions included, since `typeof fn === "function"` — unchanged, so the later
`typeof obj === "function"` branch is unreachable; primitives, `null` and functions
all map to themselves here. -/
def stripFunctionsFromParams : PVal → PVal
  | .vundefined => .vundefined
  | .vnull => .vnull
  | .vbool b => .vbool b
  | .vnum n => .vnum n
  | .vstr s => .vstr s
  | .vfunc => .vfunc
  | .varr xs =>
      let filtered := (stripFunctionsFromParamsList xs).filter fun v => !v.isUndefined
      if filtered.length > 0 then .varr filtered else .vundefined
  | .vobj fields =>
      let result := stripFunctionsFromParamsFields fields
      if result.length > 0 then .vobj result else .vundefined

/-- Loop `obj.map(stripFunctionsFromParams)` over an array's elements. -/
def stripFunctionsFromParamsList : List PVal → List PVal
  | [] => []
  | x :: xs => stripFunctionsFromParams x :: stripFunctionsFromParamsList xs

/-- The `Object.entries` loop of `stripFunctionsFromParams`: per entry, skip function
values, recurse, drop `undefined` results, and drop plain objects that became empty. -/
def stripFunctionsFromParamsFields : List (String × PVal) → List (String × PVal)
  | [] => []
  | kv :: rest =>
      (if !kv.2.isFunction then
        let sanitized := stripFunctionsFromParams kv.2
        if !sanitized.isUndefined then
          if sanitized.typeofObject ∧ !sanitized.isNull ∧ !sanitized.isArray then
            if sanitized.objKeysLength > 0 then [(kv.1, sanitized)] else []
          else [(kv.1, sanitized)]
        else []
      else []) ++ stripFunctionsFromParamsFields rest

end

/-- Source `AXIOS_CONFIG_KEYS`: the allow-list of transport-level config keys. -/
def AXIOS_CONFIG_KEYS : List String :=
  ["url", "method", "baseURL", "headers", "params", "data", "timeout",
   "timeoutErrorMessage", "withCredentials", "auth", "withXSRFToken", "xsrfCookieName",
   "xsrfHeaderName", "responseType", "responseEncoding", "validateStatus",
   "transformRequest", "transformResponse", "paramsSerializer", "onUploadProgress",
   "onDownloadProgress", "maxContentLength", "maxBodyLength", "maxRedirects", "maxRate",
   "socketPath", "transport", "httpAgent", "httpsAgent", "proxy", "decompress",
   "cancelToken", "signal", "adapter", "transitional", "env", "formSerializer",
   "lookup", "family"]

/-- Source `sanitizeAxiosConfig`: keep only allow-listed keys; for a present `params` value,
scrub it and keep it only when the scrubbed value is a non-null object (arrays count,
via `Object.keys`) with at least one key. -/
def sanitizeAxiosConfig (options : List (String × PVal)) : List (String × PVal) :=
  options.foldl
    (fun result kv =>
      if AXIOS_CONFIG_KEYS.contains kv.1 then
        if kv.1 = "params" ∧ !kv.2.isUndefined then
          let sanitizedParams := stripFunctionsFromParams kv.2
          if sanitizedParams.typeofObject ∧ !sanitizedParams.isNull ∧
              sanitizedParams.objKeysLength > 0 then
            result ++ [(kv.1, sanitizedParams)]
          else
            result
        else
          result ++ [(kv.1, kv.2)]
      else
        result)
    []

/-- Modelled from the spec: the externally owned `AuthContext` store — the
`useProfileStore` state `{token, principal}` whose definition is not among the
transport sources; `setToken` and `setProfile` write the respective fields. -/
structure ProfileStoreState (Profile : Type) where
  token : String
  profile : Option Profile
deriving DecidableEq, Repr

/-- The failed-response value seen by the response interceptor: whether
`error.config` (the original request) is attached, and `error.response?.status`. -/
structure InterceptedFailure where
  config : Bool
  responseStatus : Option Nat
deriving DecidableEq, Repr

/-- The rejected-response interceptor installed on `AXIOS_INSTANCE`: on status 401 or
403 with an original request config attached, clear the token and profile; rethrow the
error unchanged in every case. -/
def responseErrorInterceptor {Profile : Type} (st : ProfileStoreState Profile)
    (error : InterceptedFailure) : ProfileStoreState Profile × InterceptedFailure :=
  let responseStatus := error.responseStatus
  if (responseStatus = some 401 ∨ responseStatus = some 403) ∧ error.config then
    ({ st with token := "", profile := none }, error)
  else
    (st, error)

/-- One entry of the `invalid` output of `validateArray`: `{index, data, error}`. -/
structure InvalidEntry (U E : Type) where
  index : Nat
  data : U
  error : E
deriving DecidableEq, Repr

/-- The result shape of `validateArray`. -/
structure ValidateArrayResult (T U E : Type) where
  valid : List T
  invalid : List (InvalidEntry U E)
deriving DecidableEq, Repr

/-- Source `validateArray` from the response validator module: `schema.safeParse` is modelled
as a function into `Except` (error or parsed value); the `forEach` push loop is a fold
over the indexed items. -/
def validateArray {T U E : Type} (schema : U → Except E T) (data : List U) :
    ValidateArrayResult T U E :=
  data.enum.foldl
    (fun acc p =>
      match schema p.2 with
      | .ok parsed => { acc with valid := acc.valid ++ [parsed] }
      | .error e => { acc with invalid := acc.invalid ++ [⟨p.1, p.2, e⟩] })
    { valid := [], invalid := [] }

/-! Theorems. -/

/-- The well-formed model is the restriction of the general one: on every well-formed
failure (string `name` and `message`, any response carrying `headers` — the shape of
genuine `Error` and `AxiosError` values), the general handler does not throw and
agrees with `handleApiError` on every field. -/
lemma handleApiErrorRaw_wellFormed_agrees (now : JsDate) (f : Failure) :
    handleApiErrorRaw now f.toRaw =
      .ok { name := (handleApiError now f).name
            message := (handleApiError now f).message
            code := (handleApiError now f).code
            statusCode := (handleApiError now f).statusCode
            originalError := f.toRaw
            details := (handleApiError now f).details
            validationErrors := (handleApiError now f).validationErrors
            timestamp := (handleApiError now f).timestamp
            requestId := (handleApiError now f).requestId } := by
  cases f with
  | prim => rfl
  | obj e =>
      cases hr : e.response with
      | none =>
          simp only [Failure.toRaw, ErrShape.toRaw, handleApiErrorRaw, handleApiError, hr,
            Option.map_none', Option.some.injEq]
          split_ifs <;> first | rfl | tauto
      | some r =>
          simp only [Failure.toRaw, ErrShape.toRaw, handleApiErrorRaw, handleApiError, hr,
            Option.map_some', Option.some.injEq]
          split_ifs <;> rfl

/-- Claim C5: a failure that is a cancellation signal (an `Error` whose name is
`"CanceledError"` or whose message is `"canceled"`, the transport's cancellation
marker) normalizes to kind `REQUEST_CANCELLED` with `statusCode` 0, regardless of any
other fields attached to the signal — in particular any attached `response` or
`request` is ignored, so cancellation takes priority over response-based and
network-based classification. -/
theorem c5_cancellation_priority (now : JsDate) (e : ErrShape)
    (h1 : e.instanceofError = true)
    (h2 : e.name = "CanceledError" ∨ e.message = "canceled") :
    (handleApiError now (.obj e)).code = ApiErrorCode.REQUEST_CANCELLED ∧
      (handleApiError now (.obj e)).statusCode = 0 := by
  simp only [handleApiError]
  rw [if_pos ⟨h1, h2⟩]
  exact ⟨rfl, rfl⟩

/-- Witness for C5: a concrete cancellation signal carrying a 404 response and a
request object still classifies as cancelled. -/
theorem c5_cancellation_priority_witness :
    (handleApiError ⟨2026, 10, 12, 0, 0, 0, 0⟩
        (.obj ⟨true, "CanceledError", "x", true, none, some ⟨404, .absent, []⟩, true⟩)).code =
      ApiErrorCode.REQUEST_CANCELLED ∧
    (handleApiError ⟨2026, 10, 12, 0, 0, 0, 0⟩
        (.obj ⟨true, "CanceledError", "x", true, none, some ⟨404, .absent, []⟩, true⟩)).statusCode = 0 :=
  c5_cancellation_priority ⟨2026, 10, 12, 0, 0, 0, 0⟩
    ⟨true, "CanceledError", "x", true, none, some ⟨404, .absent, []⟩, true⟩
    rfl (Or.inl rfl)

/-- Claim C1: for a failure that carries a server response (a transport error with a
`response`, not matching the higher-priority cancellation marker of §4.4 rule 1):
whenever the response status is in the status table, normalization yields exactly the
table's mapped kind — with status 401 excepted, where the message heuristic takes
precedence (settled by the C3 theorem) — and whenever the status is absent from the
table, the kind is `UNKNOWN_ERROR`. -/
theorem c1_status_table_classification (now : JsDate) (e : ErrShape) (resp : RespShape)
    (hnc : ¬(e.instanceofError = true ∧ (e.name = "CanceledError" ∨ e.message = "canceled")))
    (hax : e.isAxiosError = true) (hresp : e.response = some resp) :
    (∀ c, HTTP_STATUS_TO_ERROR_CODE resp.status = some c → resp.status ≠ 401 →
      (handleApiError now (.obj e)).code = c) ∧
    (HTTP_STATUS_TO_ERROR_CODE resp.status = none →
      (handleApiError now (.obj e)).code = ApiErrorCode.UNKNOWN_ERROR) := by
  simp only [handleApiError, hresp]
  rw [if_neg hnc, if_pos hax]
  simp only [ApiError.create]
  constructor
  · intro c htable h401
    have hne0 : resp.status ≠ 0 := by
      intro h0
      rw [h0] at htable
      exact Option.noConfusion htable
    simp only [determineErrorCode]
    rw [if_pos ⟨hne0, htable ▸ rfl⟩, if_neg h401]
    simp [getErrorCodeFromStatus, htable]
  · intro habsent
    simp [determineErrorCode, habsent]

/-- Witness for C1: a concrete 404 response maps to `NOT_FOUND`, and a concrete 418
response (absent from the table) maps to `UNKNOWN_ERROR`. -/
theorem c1_status_table_classification_witness :
    (handleApiError ⟨2026, 10, 12, 0, 0, 0, 0⟩
        (.obj ⟨true, "Error", "boom", true, none, some ⟨404, .absent, []⟩, true⟩)).code =
      ApiErrorCode.NOT_FOUND ∧
    (handleApiError ⟨2026, 10, 12, 0, 0, 0, 0⟩
        (.obj ⟨true, "Error", "boom", true, none, some ⟨418, .absent, []⟩, true⟩)).code =
      ApiErrorCode.UNKNOWN_ERROR :=
  ⟨(c1_status_table_classification ⟨2026, 10, 12, 0, 0, 0, 0⟩
      ⟨true, "Error", "boom", true, none, some ⟨404, .absent, []⟩, true⟩ ⟨404, .absent, []⟩
      (by decide) rfl rfl).1 .NOT_FOUND rfl (by decide),
   (c1_status_table_classification ⟨2026, 10, 12, 0, 0, 0, 0⟩
      ⟨true, "Error", "boom", true, none, some ⟨418, .absent, []⟩, true⟩ ⟨418, .absent, []⟩
      (by decide) rfl rfl).2 rfl⟩

/-- Claim C3: for a failure carrying a server response with status 401 (and not
matching the higher-priority cancellation marker), the normalized kind is exactly what
the spec's message heuristic prescribes for the extracted message:
invalid-credentials on "invalid"/"incorrect"/"wrong" (case-insensitive), else
token-expired on "expired", else unauthorized. -/
theorem c3_unauthorized_message_heuristic (now : JsDate) (e : ErrShape) (resp : RespShape)
    (hnc : ¬(e.instanceofError = true ∧ (e.name = "CanceledError" ∨ e.message = "canceled")))
    (hax : e.isAxiosError = true) (hresp : e.response = some resp)
    (hstatus : resp.status = 401) :
    (handleApiError now (.obj e)).code = specMessageHeuristic401 (extractErrorMessage resp.data) := by
  simp only [handleApiError, hresp]
  rw [if_neg hnc, if_pos hax]
  simp only [ApiError.create, determineErrorCode, specMessageHeuristic401, hstatus]
  rw [if_pos (by decide : (401 : Nat) ≠ 0 ∧ (HTTP_STATUS_TO_ERROR_CODE 401).isSome)]
  simp only [if_true]
  rfl

/-- Witness for C3: status 401 with body message "Invalid password" classifies as
`INVALID_CREDENTIALS` (and the heuristic agrees). -/
theorem c3_unauthorized_message_heuristic_witness :
    (handleApiError ⟨2026, 10, 12, 0, 0, 0, 0⟩
        (.obj ⟨true, "Error", "boom", true, none,
          some ⟨401, .obj (some "Invalid password") none, []⟩, true⟩)).code =
      specMessageHeuristic401 (extractErrorMessage (.obj (some "Invalid password") none)) ∧
    specMessageHeuristic401 (extractErrorMessage (.obj (some "Invalid password") none)) =
      ApiErrorCode.INVALID_CREDENTIALS :=
  ⟨c3_unauthorized_message_heuristic ⟨2026, 10, 12, 0, 0, 0, 0⟩
      ⟨true, "Error", "boom", true, none,
        some ⟨401, .obj (some "Invalid password") none, []⟩, true⟩
      ⟨401, .obj (some "Invalid password") none, []⟩ (by decide) rfl rfl rfl,
   by decide⟩

/-- Claim C7: for a transport failure where the request was sent but no response was
received (and which does not match the higher-priority cancellation marker),
normalization yields kind `TIMEOUT` with status 0 when the error carries the explicit
timeout marker `code === "ECONNABORTED"` or its message contains "timeout", and kind
`NETWORK_ERROR` (network-unreachable) with status 0 otherwise. -/
theorem c7_no_response_timeout_or_network (now : JsDate) (e : ErrShape)
    (hnc : ¬(e.instanceofError = true ∧ (e.name = "CanceledError" ∨ e.message = "canceled")))
    (hax : e.isAxiosError = true) (hresp : e.response = none) (hreq : e.request = true) :
    ((e.code = some "ECONNABORTED" ∨ strIncludes e.message "timeout" = true) →
      (handleApiError now (.obj e)).code = ApiErrorCode.TIMEOUT ∧
        (handleApiError now (.obj e)).statusCode = 0) ∧
    (¬(e.code = some "ECONNABORTED" ∨ strIncludes e.message "timeout" = true) →
      (handleApiError now (.obj e)).code = ApiErrorCode.NETWORK_ERROR ∧
        (handleApiError now (.obj e)).statusCode = 0) := by
  simp only [handleApiError, hresp]
  rw [if_neg hnc, if_pos hax, if_pos hreq]
  constructor
  · intro hmarker
    rw [if_pos hmarker]
    exact ⟨rfl, rfl⟩
  · intro hmarker
    rw [if_neg hmarker]
    exact ⟨rfl, rfl⟩

/-- Witness for C7: a concrete `ECONNABORTED` failure without response is a timeout; a
concrete plain network failure without response is network-unreachable. -/
theorem c7_no_response_timeout_or_network_witness :
    (handleApiError ⟨2026, 10, 12, 0, 0, 0, 0⟩
        (.obj ⟨true, "Error", "timeout of 30000ms exceeded", true, some "ECONNABORTED",
          none, true⟩)).code = ApiErrorCode.TIMEOUT ∧
    (handleApiError ⟨2026, 10, 12, 0, 0, 0, 0⟩
        (.obj ⟨true, "Error", "socket hang up", true, none, none, true⟩)).code =
      ApiErrorCode.NETWORK_ERROR :=
  ⟨((c7_no_response_timeout_or_network ⟨2026, 10, 12, 0, 0, 0, 0⟩
      ⟨true, "Error", "timeout of 30000ms exceeded", true, some "ECONNABORTED", none, true⟩
      (by decide) rfl rfl rfl).1 (Or.inl rfl)).1,
   ((c7_no_response_timeout_or_network ⟨2026, 10, 12, 0, 0, 0, 0⟩
      ⟨true, "Error", "socket hang up", true, none, none, true⟩
      (by decide) rfl rfl rfl).2 (by decide)).1⟩

/-- Claim C4 (code bug): a function value nested inside an array in `params` is NOT
removed by scrubbing.  `typeof fn === "function"`, so the guard
`typeof obj !== "object"` returns a bare function unchanged, making the later
`typeof obj === "function"` branch dead code, and the array path's
`filter(v => v !== undefined)` keeps it.  Evaluated here at the failing input
`params = {a: [fn]}`: both the scrubber and the sanitizer keep the function, so a
function reaches the wire config, contradicting the claim (and the code's own
documented intent) that functions are removed at any nesting depth including arrays. -/
theorem c4_function_inside_array_survives :
    stripFunctionsFromParams (.vobj [("a", .varr [.vfunc])]) =
      PVal.vobj [("a", .varr [.vfunc])] ∧
    sanitizeAxiosConfig [("params", .vobj [("a", .varr [.vfunc])])] =
      [("params", .vobj [("a", .varr [.vfunc])])] :=
  ⟨rfl, rfl⟩

/-- Claim C10: whenever every `params` entry of the options is present (not
`undefined`) but its scrubbed value is not a non-null object carrying at least one key
(`Object.keys`, so a non-empty array also counts) — in particular a primitive, or an
object or array that scrubs to empty — the sanitized config omits the `params` key
entirely, even though `params` is on the allow-list. -/
theorem c10_params_omitted_when_not_object (options : List (String × PVal))
    (h : ∀ kv ∈ options, kv.1 = "params" →
      kv.2.isUndefined = false ∧
      ¬((stripFunctionsFromParams kv.2).typeofObject = true ∧
        (!(stripFunctionsFromParams kv.2).isNull) = true ∧
        (stripFunctionsFromParams kv.2).objKeysLength > 0)) :
    "params" ∉ (sanitizeAxiosConfig options).map Prod.fst := by
  have main : ∀ (opts : List (String × PVal)) (acc : List (String × PVal)),
      (∀ kv ∈ opts, kv.1 = "params" →
        kv.2.isUndefined = false ∧
        ¬((stripFunctionsFromParams kv.2).typeofObject = true ∧
          (!(stripFunctionsFromParams kv.2).isNull) = true ∧
          (stripFunctionsFromParams kv.2).objKeysLength > 0)) →
      "params" ∉ acc.map Prod.fst →
      "params" ∉ (opts.foldl
        (fun result kv =>
          if AXIOS_CONFIG_KEYS.contains kv.1 then
            if kv.1 = "params" ∧ !kv.2.isUndefined then
              let sanitizedParams := stripFunctionsFromParams kv.2
              if sanitizedParams.typeofObject ∧ !sanitizedParams.isNull ∧
                  sanitizedParams.objKeysLength > 0 then
                result ++ [(kv.1, sanitizedParams)]
              else
                result
            else
              result ++ [(kv.1, kv.2)]
          else
            result)
        acc).map Prod.fst := by
    intro opts
    induction opts with
    | nil => intro acc _ hacc; exact hacc
    | cons kv rest ih =>
        intro acc hall hacc
        simp only [List.foldl_cons]
        refine ih _ (fun p hp => hall p (List.mem_cons_of_mem kv hp)) ?_
        by_cases hkey : AXIOS_CONFIG_KEYS.contains kv.1
        · rw [if_pos hkey]
          by_cases hparams : kv.1 = "params" ∧ (!kv.2.isUndefined) = true
          · rw [if_pos hparams]
            have hcond := (hall kv (List.mem_cons_self kv rest) hparams.1).2
            rw [if_neg hcond]
            exact hacc
          · rw [if_neg hparams]
            simp only [List.map_append, List.mem_append]
            rintro (hl | hr)
            · exact hacc hl
            · simp only [List.map_cons, List.map_nil, List.mem_singleton] at hr
              exact hparams ⟨hr.symm, by
                rcases (hall kv (List.mem_cons_self kv rest) hr.symm) with ⟨hu, _⟩
                simp [hu]⟩
        · rw [if_neg hkey]
          exact hacc
  exact main options [] h (by simp)

/-- Witness for C10: a string-valued `params` alongside an allow-listed `url` is
dropped from the sanitized options. -/
theorem c10_params_omitted_when_not_object_witness :
    "params" ∉ (sanitizeAxiosConfig [("params", .vstr "x"), ("url", .vstr "/u")]).map
      Prod.fst := by
  apply c10_params_omitted_when_not_object
  intro kv hkv hp
  simp only [List.mem_cons, List.not_mem_nil, or_false] at hkv
  rcases hkv with rfl | rfl
  · exact ⟨rfl, by decide⟩
  · exact absurd hp (by decide)

/-- Claim C6 (amended): the rejected-response interceptor rethrows the original error
unchanged in every case, and clears the auth token and principal exactly when the
response status is 401 or 403 AND the error carries its original request config
(`error.config` truthy); no other state transition occurs. -/
theorem c6_interceptor_clears_auth_amended {Profile : Type}
    (st : ProfileStoreState Profile) (e : InterceptedFailure) :
    (responseErrorInterceptor st e).2 = e ∧
    (responseErrorInterceptor st e).1 =
      (if (e.responseStatus = some 401 ∨ e.responseStatus = some 403) ∧ e.config = true
       then { st with token := "", profile := none } else st) ∧
    (st.token ≠ "" →
      (((responseErrorInterceptor st e).1.token = "" ∧
        (responseErrorInterceptor st e).1.profile = none) ↔
       ((e.responseStatus = some 401 ∨ e.responseStatus = some 403) ∧ e.config = true))) := by
  simp only [responseErrorInterceptor]
  split_ifs with hcond
  · exact ⟨rfl, rfl, fun _ => ⟨fun _ => hcond, fun _ => ⟨rfl, rfl⟩⟩⟩
  · refine ⟨rfl, rfl, fun htok => ⟨fun hcl => absurd hcl.1 htok, fun hc => absurd hc hcond⟩⟩

/-- Witness for C6 (amended): with a non-empty token, a 401 failure carrying its
request config clears the token. -/
theorem c6_interceptor_clears_auth_amended_witness :
    (responseErrorInterceptor (⟨"tok", some ()⟩ : ProfileStoreState Unit) ⟨true, some 401⟩).1.token =
      "" :=
  (((c6_interceptor_clears_auth_amended (⟨"tok", some ()⟩ : ProfileStoreState Unit)
      ⟨true, some 401⟩).2.2 (by decide)).mpr (by decide)).1

/-- Counterexample to C6 as stated: a failed response with status 401 but no attached
request config does NOT clear the token, so clearing is not decided by the status
alone. -/
theorem c6_clear_requires_config_counterexample :
    (⟨false, some 401⟩ : InterceptedFailure).responseStatus = some 401 ∧
    (responseErrorInterceptor (⟨"tok", some ()⟩ : ProfileStoreState Unit) ⟨false, some 401⟩).1.token =
      "tok" := by
  constructor
  · rfl
  · rfl

/-- The fold in `validateArray` is an in-order partition of an indexed list. -/
lemma validateArray_foldl_spec {T U E : Type} (schema : U → Except E T)
    (l : List (Nat × U)) (acc : ValidateArrayResult T U E) :
    (l.foldl
      (fun acc p =>
        match schema p.2 with
        | .ok parsed => { acc with valid := acc.valid ++ [parsed] }
        | .error e => { acc with invalid := acc.invalid ++ [⟨p.1, p.2, e⟩] })
      acc) =
    ⟨acc.valid ++ l.filterMap (fun p =>
        match schema p.2 with
        | .ok t => some t
        | .error _ => none),
     acc.invalid ++ l.filterMap (fun p =>
        match schema p.2 with
        | .ok _ => none
        | .error e => some ⟨p.1, p.2, e⟩)⟩ := by
  induction l generalizing acc with
  | nil => simp
  | cons hd tl ih =>
      cases hs : schema hd.2 with
      | ok t =>
          simp only [List.foldl_cons, hs, List.filterMap_cons, ih, List.append_assoc]
          simp [hs]
      | error err =>
          simp only [List.foldl_cons, hs, List.filterMap_cons, ih, List.append_assoc]
          simp [hs]

/-- Claim C8: `validateArray` partitions its input: `valid` holds the parsed values of
exactly the items accepted by the schema, in their original relative order, and
`invalid` holds exactly one `{index, data, error}` entry for each rejected item at its
original index; the empty input yields `{valid: [], invalid: []}`. -/
theorem c8_validateArray_partition {T U E : Type} (schema : U → Except E T)
    (data : List U) :
    (validateArray schema data).valid =
      data.filterMap (fun u =>
        match schema u with
        | .ok t => some t
        | .error _ => none) ∧
    (validateArray schema data).invalid =
      data.enum.filterMap (fun p =>
        match schema p.2 with
        | .ok _ => none
        | .error e => some ⟨p.1, p.2, e⟩) ∧
    validateArray schema ([] : List U) = ⟨[], []⟩ := by
  refine ⟨?_, ?_, rfl⟩
  · show (validateArray schema data).valid = _
    unfold validateArray
    rw [validateArray_foldl_spec]
    simp only [List.nil_append]
    conv_rhs => rw [← List.enum_map_snd data]
    rw [List.filterMap_map]
    rfl
  · unfold validateArray
    rw [validateArray_foldl_spec]
    simp

/-- Any fixed-width digit rendering produces digit characters. -/
lemma digitChar_mod_isDigit (n : Nat) : (digitChar (n % 10)).isDigit = true := by
  have h : n % 10 < 10 := Nat.mod_lt _ (by norm_num)
  interval_cases hm : n % 10 <;> decide

/-- Two-digit zero-padded rendering, expanded. -/
lemma padDigits_two (n : Nat) :
    padDigits 2 n = [digitChar (n / 10 % 10), digitChar (n % 10)] := by
  norm_num [padDigits, List.range_succ]

/-- Three-digit zero-padded rendering, expanded. -/
lemma padDigits_three (n : Nat) :
    padDigits 3 n = [digitChar (n / 100 % 10), digitChar (n / 10 % 10), digitChar (n % 10)] := by
  norm_num [padDigits, List.range_succ]

/-- Four-digit zero-padded rendering, expanded. -/
lemma padDigits_four (n : Nat) :
    padDigits 4 n = [digitChar (n / 1000 % 10), digitChar (n / 100 % 10),
      digitChar (n / 10 % 10), digitChar (n % 10)] := by
  norm_num [padDigits, List.range_succ]

/-- The character sequence of the rendered timestamp. -/
lemma toISOString_toList (d : JsDate) :
    (JsDate.toISOString d).toList =
      [digitChar (d.year / 1000 % 10), digitChar (d.year / 100 % 10),
       digitChar (d.year / 10 % 10), digitChar (d.year % 10), '-',
       digitChar (d.month / 10 % 10), digitChar (d.month % 10), '-',
       digitChar (d.day / 10 % 10), digitChar (d.day % 10), 'T',
       digitChar (d.hour / 10 % 10), digitChar (d.hour % 10), ':',
       digitChar (d.minute / 10 % 10), digitChar (d.minute % 10), ':',
       digitChar (d.second / 10 % 10), digitChar (d.second % 10), '.',
       digitChar (d.millisecond / 100 % 10), digitChar (d.millisecond / 10 % 10),
       digitChar (d.millisecond % 10), 'Z'] := by
  simp [JsDate.toISOString, padDigits_four, padDigits_three, padDigits_two, String.toList]

/-- The rendered timestamp always has the ISO-8601 UTC shape. -/
lemma toISOString_isIso8601 (d : JsDate) : isIso8601UTC d.toISOString = true := by
  simp only [isIso8601UTC, toISOString_toList]
  simp [digitChar_mod_isDigit]

/-- Claim C9: serializing a normalized error via `toJSON` yields a plain object with
exactly the fields `name`, `message`, `code` (the spec's kind), `statusCode` (the
spec's httpStatus), `details`, `validationErrors` (the spec's fieldErrors),
`timestamp` (the spec's occurredAt) and `requestId` (the spec's correlationId), in
that order, where the `timestamp` value is an ISO-8601 UTC timestamp string. -/
theorem c9_toJSON_fields (e : ApiError) (_hv : e.timestamp.Valid) :
    (ApiError.toJSON e).map Prod.fst =
      ["name", "message", "code", "statusCode", "details", "validationErrors",
       "timestamp", "requestId"] ∧
    ∃ s, ("timestamp", JsonFieldValue.ofString s) ∈ ApiError.toJSON e ∧
      isIso8601UTC s = true := by
  refine ⟨rfl, e.timestamp.toISOString, ?_, toISOString_isIso8601 e.timestamp⟩
  simp [ApiError.toJSON]

/-- Witness for C9: a concrete normalized error carries exactly the eight fields and
a well-formed timestamp. -/
theorem c9_toJSON_fields_witness :
    (ApiError.toJSON
        (ApiError.create ⟨2026, 10, 12, 3, 4, 5, 6⟩ "m" .NOT_FOUND 404 .prim none none
          none)).map Prod.fst =
      ["name", "message", "code", "statusCode", "details", "validationErrors",
       "timestamp", "requestId"] ∧
    ∃ s, ("timestamp", JsonFieldValue.ofString s) ∈
        ApiError.toJSON
          (ApiError.create ⟨2026, 10, 12, 3, 4, 5, 6⟩ "m" .NOT_FOUND 404 .prim none none
            none) ∧
      isIso8601UTC s = true :=
  c9_toJSON_fields
    (ApiError.create ⟨2026, 10, 12, 3, 4, 5, 6⟩ "m" .NOT_FOUND 404 .prim none none none)
    (by simp [JsDate.Valid, ApiError.create])

end MetaStack
